import Mathlib

/-!
Shallow embedding of the crud-mixin library (src/dist/index.js): the `Mixin`
class with its CRUD slots and write-protection flags, the `MixinPlugin`
container, and the `MixinCompositor` registry.  Opaque JS callables are
represented by identifiers (`Nat`); `null` is `Option.none`.  JS object
references mutated in place are modelled by a heap `Nat → Mixin` indexed by
object identity.
-/

/-- The four CRUD accessor names: "make", "get", "set", "del". -/
inductive Slot where
  | make
  | get
  | set
  | del
deriving DecidableEq, Repr

/-- The value of the `type` field of an object handed to the registry.
In JS it is either not present at all (`"type" in mixin` is false), present
but `undefined` (a `Mixin` constructed without a type argument: the class
field declaration creates the own property), or a string. -/
inductive TypeField where
  | missing
  | undef
  | str (s : String)
deriving DecidableEq, Repr

/-- The `writeProtectedMethods` index of a `Mixin`: one boolean per accessor. -/
structure WPIndex where
  make : Bool := true
  get : Bool := true
  set : Bool := true
  del : Bool := true
deriving DecidableEq, Repr

/-- The optional constructor argument `{ make, get, set, del }`; absent keys
default to `null` via JS destructuring defaults. -/
structure CRUDInitializer where
  make : Option Nat := none
  get : Option Nat := none
  set : Option Nat := none
  del : Option Nat := none
deriving DecidableEq, Repr

/-- The argument of `Mixin.allowOverride`: absent keys default to `true`. -/
structure AllowOverrideArgs where
  allowMake : Bool := true
  allowGet : Bool := true
  allowSet : Bool := true
  allowDel : Bool := true
deriving DecidableEq, Repr

/-- A `Mixin` instance: the `type` field, the `writeProtectedMethods` index
and the four CRUD slots (each a function identifier or `null`).  All four
slots are class fields, hence own properties of every instance. -/
structure Mixin where
  type : TypeField
  writeProtectedMethods : WPIndex := {}
  make : Option Nat := none
  get : Option Nat := none
  set : Option Nat := none
  del : Option Nat := none
deriving DecidableEq, Repr

/-- Read the CRUD slot named by `accessor` (`this[accessor]`). -/
def Mixin.getOp (m : Mixin) : Slot → Option Nat
  | Slot.make => m.make
  | Slot.get => m.get
  | Slot.set => m.set
  | Slot.del => m.del

/-- Write the CRUD slot named by `accessor` (`this[accessor] = v`). -/
def Mixin.setOp (m : Mixin) : Slot → Option Nat → Mixin
  | Slot.make, v => { m with make := v }
  | Slot.get, v => { m with get := v }
  | Slot.set, v => { m with set := v }
  | Slot.del, v => { m with del := v }

/-- Read `this.writeProtectedMethods[accessor]`. -/
def Mixin.wpFlag (m : Mixin) : Slot → Bool
  | Slot.make => m.writeProtectedMethods.make
  | Slot.get => m.writeProtectedMethods.get
  | Slot.set => m.writeProtectedMethods.set
  | Slot.del => m.writeProtectedMethods.del

/-- Write `this.writeProtectedMethods[accessor] = b`. -/
def Mixin.setWP (m : Mixin) : Slot → Bool → Mixin
  | Slot.make, b => { m with writeProtectedMethods := { m.writeProtectedMethods with make := b } }
  | Slot.get, b => { m with writeProtectedMethods := { m.writeProtectedMethods with get := b } }
  | Slot.set, b => { m with writeProtectedMethods := { m.writeProtectedMethods with set := b } }
  | Slot.del, b => { m with writeProtectedMethods := { m.writeProtectedMethods with del := b } }

/-- The `Mixin` constructor: `new Mixin(type, {make, get, set, del})`.
`type = none` models calling it without a type argument, which stores
`undefined` in the (existing) `type` field.  `writeProtectedMethods` keeps
its field-initializer value: all four flags `true`. -/
def Mixin.construct (type : Option String) (init : CRUDInitializer := {}) : Mixin :=
  { type := match type with
      | none => TypeField.undef
      | some s => TypeField.str s
    writeProtectedMethods := { make := true, get := true, set := true, del := true }
    make := init.make
    get := init.get
    set := init.set
    del := init.del }

/-- `Mixin.allowOverride`: each flag of `writeProtectedMethods` is set to the
negation of the corresponding argument (absent arguments default to `true`). -/
def Mixin.allowOverride (m : Mixin) (args : AllowOverrideArgs := {}) : Mixin :=
  { m with writeProtectedMethods :=
      { make := !args.allowMake
        get := !args.allowGet
        set := !args.allowSet
        del := !args.allowDel } }

/-- `Mixin.patchProperty(mixin, accessor)`.  `mixin.hasOwnProperty(accessor)`
is always true between `Mixin` instances (class fields are own properties),
so that early return never fires here.  The method returns unchanged when the
target slot is non-null and write-protected; otherwise it re-protects the
slot and copies the source value (which may be `null`). -/
def Mixin.patchProperty (this mixin : Mixin) (accessor : Slot) : Mixin :=
  if (this.getOp accessor).isSome && this.wpFlag accessor then this
  else (this.setWP accessor true).setOp accessor (mixin.getOp accessor)

/-- `Mixin.patchMixin(mixin)`: `patchProperty` on "make", "get", "set", "del"
in that order. -/
def Mixin.patchMixin (this mixin : Mixin) : Mixin :=
  (((this.patchProperty mixin Slot.make).patchProperty mixin Slot.get).patchProperty
      mixin Slot.set).patchProperty mixin Slot.del

/-- The property key under which `addMixin` indexes a mixin: absent when the
`type` property does not exist at all; JS coerces `undefined` used as a
property key to the string "undefined". -/
def Mixin.typeKey (m : Mixin) : Option String :=
  match m.type with
  | TypeField.missing => none
  | TypeField.undef => some "undefined"
  | TypeField.str s => some s

/-- The observable behaviour of a plugin's `initPlugin` callable when it is
invoked: it either resolves or raises/rejects with an error value. -/
inductive InitResult where
  | resolves
  | rejects (e : Nat)
deriving DecidableEq, Repr

/-- A `MixinPlugin` after `Object.assign(this, initializerObj)`: the five
reserved metadata fields, plus its member `Mixin` objects.  The members are
the values of every non-reserved enumerable property; being JS object
references shared with the caller, they are heap identifiers here.
`initPlugin`/`loadCondition` are `null` when `none`; a `loadCondition` of
`some b` is a predicate returning `b`. -/
structure MixinPlugin where
  name : String := "Untitled Plugin"
  version : String := "0.0.0"
  allowOverride : Bool := false
  initPlugin : Option InitResult := none
  loadCondition : Option Bool := none
  mixinIds : List Nat := []
deriving DecidableEq, Repr

/-- The dummy value a heap holds at unused identifiers. -/
def dummyMixin : Mixin :=
  { type := TypeField.missing }

/-- The store of `Mixin` objects by identity: JS mutation in place. -/
def Heap : Type :=
  Nat → Mixin

/-- Point update of the heap (assignment through an object reference). -/
def Heap.update (h : Heap) (i : Nat) (m : Mixin) : Heap :=
  fun j => if j = i then m else h j

/-- One iteration of the `MixinPlugin` constructor's member loop:
`mixin.allowOverride()` with all-default arguments. -/
def unprotectStep (acc : Heap) (k : Nat) : Heap :=
  Heap.update acc k ((acc k).allowOverride {})

/-- The tail of the `MixinPlugin` constructor: when `allowOverride` is true,
`mixin.allowOverride()` (all-default arguments) is called on every member
mixin; otherwise nothing happens after `Object.assign`. -/
def MixinPlugin.construct (h : Heap) (p : MixinPlugin) : Heap × MixinPlugin :=
  if !p.allowOverride then (h, p)
  else (p.mixinIds.foldl unprotectStep h, p)

/-- The `MixinCompositor` state: the `plugins` map (insertion-ordered, as JS
string-keyed objects are), the heap of mixin objects, and the `mixins` index
from type key to the identifiers of the registered mixins of that type. -/
structure MixinCompositor where
  plugins : List (String × MixinPlugin) := []
  heap : Heap := fun _ => dummyMixin
  mixins : List (String × List Nat) := []

/-- A compositor whose heap holds the given mixins at identifiers 0, 1, ... -/
def MixinCompositor.ofMixins (l : List Mixin) : MixinCompositor :=
  { plugins := [], heap := fun i => l.getD i dummyMixin, mixins := [] }

/-- Store a value under a key in a JS string-keyed object: replacing an
existing key keeps its position, a new key is appended. -/
def putKey (ps : List (String × MixinPlugin)) (k : String) (v : MixinPlugin) :
    List (String × MixinPlugin) :=
  if ps.any (fun q => q.1 = k) then ps.map (fun q => if q.1 = k then (k, v) else q)
  else ps ++ [(k, v)]

/-- Replace the identifier list stored under key `k` in the `mixins` index. -/
def putIndex (xs : List (String × List Nat)) (k : String) (v : List Nat) :
    List (String × List Nat) :=
  xs.map (fun q => if q.1 = k then (k, v) else q)

/-- One iteration of `addMixin`'s merge loop over the already-registered
mixin `j` of the same type, with `i` the incoming mixin:
`mixin.patchMixin(mixin2); mixin2.patchMixin(mixin)` — the second patch reads
the incoming mixin as already mutated by the first. -/
def mergeStep (i : Nat) (h : Heap) (j : Nat) : Heap :=
  let h1 := Heap.update h i ((h i).patchMixin (h j))
  Heap.update h1 j ((h1 j).patchMixin (h1 i))

/-- `MixinCompositor.addMixin(mixin)`: throws when the object has no `type`
property; otherwise merges bidirectionally with every registered mixin of the
same type key and appends the identifier to the index. -/
def MixinCompositor.addMixin (σ : MixinCompositor) (i : Nat) :
    Except String MixinCompositor :=
  match (σ.heap i).typeKey with
  | none => Except.error "Mixin plugin missing type definition"
  | some type =>
    match σ.mixins.lookup type with
    | none => Except.ok { σ with mixins := σ.mixins ++ [(type, [i])] }
    | some ids =>
      Except.ok { σ with
        heap := ids.foldl (mergeStep i) σ.heap
        mixins := putIndex σ.mixins type (ids ++ [i]) }

/-- The `for (const prop in plugin)` loop of `addPlugin`: `addMixin` on each
member in order; a thrown error propagates, leaving the mutations already
made in place (second component: the propagated error, if any). -/
def MixinCompositor.addMixinLoop (σ : MixinCompositor) :
    List Nat → MixinCompositor × Option String
  | [] => (σ, none)
  | i :: rest =>
    match σ.addMixin i with
    | Except.error e => (σ, some e)
    | Except.ok σ1 => σ1.addMixinLoop rest

/-- `MixinCompositor.addPlugin(plugin)`: skip entirely when `loadCondition`
is non-null and returns falsy; otherwise record the plugin under its name,
then `addMixin` each non-reserved member in order. -/
def MixinCompositor.addPlugin (σ : MixinCompositor) (p : MixinPlugin) :
    MixinCompositor × Option String :=
  if p.loadCondition = some false then (σ, none)
  else
    MixinCompositor.addMixinLoop
      { σ with plugins := putKey σ.plugins p.name p } p.mixinIds

/-- An argument value as an `initPlugin` callable observes it: a plain value
or an array of values.  `initMixinPlugins` passes
`plugin.initPlugin.call(plugin, initParameters)` — the rest-parameter array
as ONE argument, not spread. -/
inductive JSVal where
  | num (n : Nat)
  | arr (ns : List Nat)
deriving DecidableEq, Repr

/-- The loop of `initMixinPlugins` over the `plugins` map in insertion order:
returns the invocation trace (receiver plugin name, argument list passed) and
the error of the first initializer that rejects, if any; later plugins are
not invoked after a rejection. -/
def initLoop (args : List Nat) :
    List (String × MixinPlugin) → List (String × List JSVal) × Option Nat
  | [] => ([], none)
  | (n, p) :: rest =>
    match p.initPlugin with
    | none => initLoop args rest
    | some InitResult.resolves =>
      let r := initLoop args rest
      ((n, [JSVal.arr args]) :: r.1, r.2)
    | some (InitResult.rejects e) => ([(n, [JSVal.arr args])], some e)

/-- `MixinCompositor.initMixinPlugins(...initParameters)`: awaits each
non-null `initPlugin` sequentially and resolves to the compositor itself, or
rejects with the first initializer's error. -/
def MixinCompositor.initMixinPlugins (σ : MixinCompositor) (args : List Nat) :
    List (String × List JSVal) × Except Nat MixinCompositor :=
  let r := initLoop args σ.plugins
  (r.1, match r.2 with
    | none => Except.ok σ
    | some e => Except.error e)

/-- Register two mixins, stored at identifiers 0 and 1, in that order, on a
fresh compositor (`addMixin A; addMixin B`); `none` when one throws. -/
def composeTwo (A B : Mixin) : Option MixinCompositor :=
  match (MixinCompositor.ofMixins [A, B]).addMixin 0 with
  | Except.error _ => none
  | Except.ok σ1 =>
    match σ1.addMixin 1 with
    | Except.error _ => none
    | Except.ok σ2 => some σ2

/-- The union of two nullable slots, left-biased (JS `a ?? b` on slots). -/
def orOp (a b : Option Nat) : Option Nat :=
  match a with
  | some x => some x
  | none => b

theorem getOp_setOp_same (m : Mixin) (a : Slot) (v : Option Nat) :
    (m.setOp a v).getOp a = v := by
  cases a <;> rfl

theorem getOp_setOp_ne (m : Mixin) (a b : Slot) (v : Option Nat) (h : a ≠ b) :
    (m.setOp a v).getOp b = m.getOp b := by
  cases a <;> cases b <;> first | exact absurd rfl h | rfl

theorem getOp_setWP (m : Mixin) (a b : Slot) (x : Bool) :
    (m.setWP a x).getOp b = m.getOp b := by
  cases a <;> cases b <;> rfl

theorem wpFlag_setWP_same (m : Mixin) (a : Slot) (x : Bool) :
    (m.setWP a x).wpFlag a = x := by
  cases a <;> rfl

theorem wpFlag_setWP_ne (m : Mixin) (a b : Slot) (x : Bool) (h : a ≠ b) :
    (m.setWP a x).wpFlag b = m.wpFlag b := by
  cases a <;> cases b <;> first | exact absurd rfl h | rfl

theorem wpFlag_setOp (m : Mixin) (a b : Slot) (v : Option Nat) :
    (m.setOp a v).wpFlag b = m.wpFlag b := by
  cases a <;> cases b <;> rfl

theorem type_setOp (m : Mixin) (a : Slot) (v : Option Nat) :
    (m.setOp a v).type = m.type := by
  cases a <;> rfl

theorem type_setWP (m : Mixin) (a : Slot) (x : Bool) :
    (m.setWP a x).type = m.type := by
  cases a <;> rfl

/-- The slot `patchProperty` targets ends up holding the protected old value
or, failing the protection guard, the source's value. -/
theorem patchProperty_op_same (m src : Mixin) (a : Slot) :
    (m.patchProperty src a).getOp a =
      if ((m.getOp a).isSome && m.wpFlag a) = true then m.getOp a else src.getOp a := by
  unfold Mixin.patchProperty
  split
  · next h => simp [h]
  · next h => simp [h, getOp_setOp_same]

/-- `patchProperty` leaves every other slot's operation untouched. -/
theorem patchProperty_op_ne (m src : Mixin) (a b : Slot) (h : a ≠ b) :
    (m.patchProperty src a).getOp b = m.getOp b := by
  unfold Mixin.patchProperty
  split
  · rfl
  · rw [getOp_setOp_ne _ _ _ _ h, getOp_setWP]

/-- After `patchProperty` the targeted slot is always write-protected: the
guard branch requires the flag already true, the write branch sets it. -/
theorem patchProperty_wp_same (m src : Mixin) (a : Slot) :
    (m.patchProperty src a).wpFlag a = true := by
  unfold Mixin.patchProperty
  split
  · next h => exact (Bool.and_eq_true_iff.mp h).2
  · rw [wpFlag_setOp, wpFlag_setWP_same]

/-- `patchProperty` leaves every other slot's protection flag untouched. -/
theorem patchProperty_wp_ne (m src : Mixin) (a b : Slot) (h : a ≠ b) :
    (m.patchProperty src a).wpFlag b = m.wpFlag b := by
  unfold Mixin.patchProperty
  split
  · rfl
  · rw [wpFlag_setOp, wpFlag_setWP_ne _ _ _ _ h]

theorem patchProperty_type (m src : Mixin) (a : Slot) :
    (m.patchProperty src a).type = m.type := by
  unfold Mixin.patchProperty
  split
  · rfl
  · rw [type_setOp, type_setWP]

/-- Slot-wise description of `patchMixin`: each slot keeps its protected
non-null value, otherwise takes the source's value for that slot. -/
theorem patchMixin_op (m src : Mixin) (s : Slot) :
    (m.patchMixin src).getOp s =
      if ((m.getOp s).isSome && m.wpFlag s) = true then m.getOp s else src.getOp s := by
  unfold Mixin.patchMixin
  cases s
  · rw [patchProperty_op_ne _ _ _ _ (by decide), patchProperty_op_ne _ _ _ _ (by decide),
      patchProperty_op_ne _ _ _ _ (by decide), patchProperty_op_same]
  · rw [patchProperty_op_ne _ _ _ _ (by decide), patchProperty_op_ne _ _ _ _ (by decide),
      patchProperty_op_same, patchProperty_op_ne _ _ _ _ (by decide),
      patchProperty_wp_ne _ _ _ _ (by decide)]
  · rw [patchProperty_op_ne _ _ _ _ (by decide), patchProperty_op_same,
      patchProperty_op_ne _ _ _ _ (by decide), patchProperty_op_ne _ _ _ _ (by decide),
      patchProperty_wp_ne _ _ _ _ (by decide), patchProperty_wp_ne _ _ _ _ (by decide)]
  · rw [patchProperty_op_same, patchProperty_op_ne _ _ _ _ (by decide),
      patchProperty_op_ne _ _ _ _ (by decide), patchProperty_op_ne _ _ _ _ (by decide),
      patchProperty_wp_ne _ _ _ _ (by decide), patchProperty_wp_ne _ _ _ _ (by decide),
      patchProperty_wp_ne _ _ _ _ (by decide)]

/-- After `patchMixin` every slot of the target is write-protected. -/
theorem patchMixin_wp (m src : Mixin) (s : Slot) :
    (m.patchMixin src).wpFlag s = true := by
  unfold Mixin.patchMixin
  cases s
  · rw [patchProperty_wp_ne _ _ _ _ (by decide), patchProperty_wp_ne _ _ _ _ (by decide),
      patchProperty_wp_ne _ _ _ _ (by decide), patchProperty_wp_same]
  · rw [patchProperty_wp_ne _ _ _ _ (by decide), patchProperty_wp_ne _ _ _ _ (by decide),
      patchProperty_wp_same]
  · rw [patchProperty_wp_ne _ _ _ _ (by decide), patchProperty_wp_same]
  · rw [patchProperty_wp_same]

/-- A write-protected non-null slot survives `patchMixin` with its value and
its protection. -/
theorem patchMixin_preserves (m src : Mixin) (s : Slot) (v : Nat)
    (hop : m.getOp s = some v) (hwp : m.wpFlag s = true) :
    (m.patchMixin src).getOp s = some v ∧ (m.patchMixin src).wpFlag s = true := by
  refine ⟨?_, patchMixin_wp m src s⟩
  rw [patchMixin_op, hop, hwp]
  simp

/-- What registering two same-typed mixins computes: the merge loop leaves
the first mixin as `A.patchMixin (B.patchMixin A)` (the second bidirectional
patch reads the already-patched incoming mixin) and the second as
`B.patchMixin A`, and the index holds both under the shared type key. -/
theorem composeTwo_spec (t : String) (A B : Mixin)
    (hA : A.type = TypeField.str t) (hB : B.type = TypeField.str t) :
    (composeTwo A B).map (fun σ => ((σ.heap 0), (σ.heap 1), σ.mixins)) =
      some (A.patchMixin (B.patchMixin A), B.patchMixin A, [(t, [0, 1])]) := by
  simp [composeTwo, MixinCompositor.addMixin, MixinCompositor.ofMixins, Mixin.typeKey,
    hA, hB, mergeStep, Heap.update, putIndex, List.lookup]

/-- `mergeStep` never destroys a write-protected non-null slot, at any heap
position. -/
theorem mergeStep_preserves (i j j' : Nat) (h : Heap) (s : Slot) (v : Nat)
    (hop : (h j).getOp s = some v) (hwp : (h j).wpFlag s = true) :
    ((mergeStep i h j') j).getOp s = some v ∧ ((mergeStep i h j') j).wpFlag s = true := by
  unfold mergeStep Heap.update
  by_cases hjj : j = j'
  · subst hjj
    by_cases hji : j = i
    · subst hji
      simp only [if_pos rfl]
      exact patchMixin_preserves _ _ _ _ (patchMixin_preserves _ _ _ _ hop hwp).1
        (patchMixin_preserves _ _ _ _ hop hwp).2
    · simp only [if_pos rfl, if_neg hji]
      exact patchMixin_preserves _ _ _ _ hop hwp
  · simp only [if_neg hjj]
    by_cases hji : j = i
    · subst hji
      simp only [if_pos rfl]
      exact patchMixin_preserves _ _ _ _ hop hwp
    · simp only [if_neg hji]
      exact ⟨hop, hwp⟩

/-- The whole merge loop of `addMixin` preserves write-protected non-null
slots at every heap position. -/
theorem foldl_mergeStep_preserves (i : Nat) (s : Slot) (v : Nat) :
    ∀ (ids : List Nat) (h : Heap) (j : Nat),
      (h j).getOp s = some v → (h j).wpFlag s = true →
      ((ids.foldl (mergeStep i) h) j).getOp s = some v ∧
        ((ids.foldl (mergeStep i) h) j).wpFlag s = true
  | [], _, _, hop, hwp => ⟨hop, hwp⟩
  | x :: rest, h, j, hop, hwp => by
    have hstep := mergeStep_preserves i j x h s v hop hwp
    exact foldl_mergeStep_preserves i s v rest (mergeStep i h x) j hstep.1 hstep.2

/-- `addMixin` (when it does not throw) preserves every write-protected
non-null slot of every mixin in the heap. -/
theorem addMixin_preserves (σ σ' : MixinCompositor) (i j : Nat) (s : Slot) (v : Nat)
    (hop : (σ.heap j).getOp s = some v) (hwp : (σ.heap j).wpFlag s = true)
    (hok : σ.addMixin i = Except.ok σ') :
    (σ'.heap j).getOp s = some v ∧ (σ'.heap j).wpFlag s = true := by
  unfold MixinCompositor.addMixin at hok
  split at hok
  · exact absurd hok (by simp)
  · split at hok
    · cases hok
      exact ⟨hop, hwp⟩
    · cases hok
      exact foldl_mergeStep_preserves i s v _ σ.heap j hop hwp

/-- Positions not in the member list are untouched by the `MixinPlugin`
constructor's unprotect loop. -/
theorem foldl_unprotect_not_mem :
    ∀ (ids : List Nat) (h : Heap) (i : Nat), i ∉ ids →
      (ids.foldl unprotectStep h) i = h i
  | [], _, _, _ => rfl
  | x :: rest, h, i, hni => by
    have hix : i ≠ x := fun hcontra => hni (hcontra ▸ List.mem_cons_self x rest)
    have hrest : i ∉ rest := fun hcontra => hni (List.mem_cons_of_mem x hcontra)
    rw [List.foldl_cons, foldl_unprotect_not_mem rest _ i hrest]
    simp [unprotectStep, Heap.update, hix]

/-- Every member the unprotect loop visits ends with all four protection
flags cleared. -/
theorem foldl_unprotect_mem :
    ∀ (ids : List Nat) (h : Heap) (i : Nat), i ∈ ids →
      ((ids.foldl unprotectStep h) i).writeProtectedMethods =
        { make := false, get := false, set := false, del := false } := by
  intro ids
  induction ids with
  | nil => intro h i hi; cases hi
  | cons x rest ih =>
    intro h i hi
    rw [List.foldl_cons]
    by_cases hr : i ∈ rest
    · exact ih _ i hr
    · have hix : i = x := by
        rcases List.mem_cons.mp hi with hx | hx
        · exact hx
        · exact absurd hx hr
      subst hix
      rw [foldl_unprotect_not_mem rest _ i hr]
      simp [unprotectStep, Heap.update, Mixin.allowOverride, AllowOverrideArgs]

/-- `patchProperty` is the identity on a write-protected non-null slot. -/
theorem patchProperty_protected (m src : Mixin) (a : Slot)
    (h1 : (m.getOp a).isSome = true) (h2 : m.wpFlag a = true) :
    m.patchProperty src a = m := by
  simp [Mixin.patchProperty, h1, h2]

/-- A fully protected fresh bundle of type "T" holding only `make`. -/
def bundleMakeA : Mixin :=
  Mixin.construct (some "T") { make := some 0 }

/-- A fully protected fresh bundle of type "T" holding only `get`. -/
def bundleGetB : Mixin :=
  Mixin.construct (some "T") { get := some 1 }

/-- The bundle `bundleGetB` after unprotecting exactly its `get` slot. -/
def bundleGetUnprot : Mixin :=
  (Mixin.construct (some "T") { get := some 1 }).allowOverride
    { allowMake := false, allowGet := true, allowSet := false, allowDel := false }

/-- A fresh bundle of type "T" with no operations. -/
def emptyBundleT : Mixin :=
  Mixin.construct (some "T") {}

/-- Claim C1: a bundle built by the constructor (with or without explicit
initial operations) has all four write-protection flags true immediately
after construction, and a non-null slot whose flag is true is never changed
by a later `patchProperty` (mergeOne) or `patchMixin` (mergeAll) from any
source bundle of the same type. -/
theorem c1_fresh_protection_and_no_override :
    (∀ (t : Option String) (init : CRUDInitializer),
      (Mixin.construct t init).writeProtectedMethods =
        { make := true, get := true, set := true, del := true }) ∧
    (∀ (m src : Mixin) (s a : Slot) (v : Nat), m.type = src.type →
      m.getOp s = some v → m.wpFlag s = true →
      (m.patchProperty src a).getOp s = m.getOp s ∧
        (m.patchMixin src).getOp s = m.getOp s) := by
  refine ⟨fun t init => rfl, fun m src s a v _ hop hwp => ⟨?_, ?_⟩⟩
  · by_cases hab : a = s
    · subst hab
      rw [patchProperty_protected m src a (by rw [hop]; rfl) hwp]
    · exact patchProperty_op_ne m src a s hab
  · rw [(patchMixin_preserves m src s v hop hwp).1, hop]

/-- Witness for C1 at concrete bundles: construction protects all slots, and
a protected `get` survives a merge from a bundle holding a different `get`. -/
theorem c1_wit :
    (Mixin.construct (some "T") { make := some 0, get := some 1 }).writeProtectedMethods =
        { make := true, get := true, set := true, del := true } ∧
      (bundleGetB.patchMixin (Mixin.construct (some "T") { get := some 2 })).getOp Slot.get =
        bundleGetB.getOp Slot.get :=
  ⟨c1_fresh_protection_and_no_override.1 (some "T") { make := some 0, get := some 1 },
    (c1_fresh_protection_and_no_override.2 bundleGetB
      (Mixin.construct (some "T") { get := some 2 }) Slot.get Slot.get 1 rfl rfl rfl).2⟩

/-- Claim C3: whenever `patchProperty` runs, the targeted slot ends up
write-protected (an overwrite re-protects; a refusal presupposes protection);
hence after `allowOverride({allowGet: true})` one merge fills `get` and
re-protects it, and a merge from a second source with a different non-null
`get` leaves the bundle entirely unchanged. -/
theorem c3_overwrite_reprotects :
    (∀ (m src : Mixin) (a : Slot), (m.patchProperty src a).wpFlag a = true) ∧
    (∀ (m src1 src2 : Mixin) (g1 g2 : Nat),
      src1.get = some g1 → src2.get = some g2 → g1 ≠ g2 →
      ((m.allowOverride { allowGet := true }).patchProperty src1 Slot.get).get = some g1 ∧
        ((m.allowOverride { allowGet := true }).patchProperty src1
            Slot.get).writeProtectedMethods.get = true ∧
        ((m.allowOverride { allowGet := true }).patchProperty src1 Slot.get).patchProperty
            src2 Slot.get =
          (m.allowOverride { allowGet := true }).patchProperty src1 Slot.get) := by
  refine ⟨patchProperty_wp_same, fun m src1 src2 g1 g2 h1 _ _ => ?_⟩
  have hg : ((m.allowOverride { allowGet := true }).patchProperty src1 Slot.get).get =
      some g1 := by
    simp [Mixin.patchProperty, Mixin.allowOverride, Mixin.wpFlag, Mixin.getOp, Mixin.setWP,
      Mixin.setOp, h1]
  have hw : ((m.allowOverride { allowGet := true }).patchProperty src1
      Slot.get).writeProtectedMethods.get = true :=
    patchProperty_wp_same (m.allowOverride { allowGet := true }) src1 Slot.get
  have hgOp : ((m.allowOverride { allowGet := true }).patchProperty src1
      Slot.get).getOp Slot.get = some g1 := hg
  have hwF : ((m.allowOverride { allowGet := true }).patchProperty src1
      Slot.get).wpFlag Slot.get = true := hw
  exact ⟨hg, hw, patchProperty_protected _ src2 Slot.get (by rw [hgOp]; rfl) hwF⟩

/-- Witness for C3 at concrete bundles. -/
theorem c3_wit :
    ((emptyBundleT.allowOverride { allowGet := true }).patchProperty bundleGetB
          Slot.get).get = some 1 ∧
      ((emptyBundleT.allowOverride { allowGet := true }).patchProperty bundleGetB
          Slot.get).writeProtectedMethods.get = true ∧
      ((emptyBundleT.allowOverride { allowGet := true }).patchProperty bundleGetB
            Slot.get).patchProperty (Mixin.construct (some "T") { get := some 2 })
          Slot.get =
        (emptyBundleT.allowOverride { allowGet := true }).patchProperty bundleGetB
          Slot.get :=
  c3_overwrite_reprotects.2 emptyBundleT bundleGetB
    (Mixin.construct (some "T") { get := some 2 }) 1 2 rfl rfl (by decide)

/-- Counterexample to claim C4 as stated: the target holds `get = 1`
unprotected, the source's `get` slot is null; `mergeOne(source, get)` is
claimed to change nothing, but it overwrites the operation with null and
sets the flag to true (the own-property check never exempts a `Mixin`
source: its four slots are always own properties, null included). -/
theorem c4_cex :
    (bundleGetUnprot.patchProperty emptyBundleT Slot.get).get = none ∧
      (bundleGetUnprot.patchProperty emptyBundleT Slot.get).writeProtectedMethods.get =
        true ∧
      bundleGetUnprot.get = some 1 ∧
      bundleGetUnprot.writeProtectedMethods.get = false := by
  decide

/-- Claim C4 amended: when the source's slot is null, `mergeOne` leaves the
target's operation and flag unchanged exactly when the target's slot is
non-null and write-protected; otherwise it copies the null into the slot and
sets the flag to true. -/
theorem c4_null_source_merge :
    ∀ (m src : Mixin) (s : Slot), src.getOp s = none →
      (((m.getOp s).isSome && m.wpFlag s) = true → m.patchProperty src s = m) ∧
      (((m.getOp s).isSome && m.wpFlag s) = false →
        (m.patchProperty src s).getOp s = none ∧
          (m.patchProperty src s).wpFlag s = true) := by
  intro m src s hsrc
  refine ⟨fun hg => ?_, fun hg => ⟨?_, patchProperty_wp_same m src s⟩⟩
  · exact patchProperty_protected m src s (Bool.and_eq_true_iff.mp hg).1
      (Bool.and_eq_true_iff.mp hg).2
  · rw [patchProperty_op_same, hg]
    simpa using hsrc

/-- Witness for C4 (amended) at a concrete input: a protected non-null `get`
is untouched by a null-source merge. -/
theorem c4_wit : bundleGetB.patchProperty emptyBundleT Slot.get = bundleGetB :=
  (c4_null_source_merge bundleGetB emptyBundleT Slot.get rfl).1 rfl

/-- Claim C8: `allowOverride` (unprotect) stores the negation of each
supplied flag, with absent keys defaulting to true; `{allowGet: true}` and
the no-argument call both clear all four protection flags. -/
theorem c8_allow_override_negation :
    ∀ (m : Mixin) (args : AllowOverrideArgs),
      (m.allowOverride args).writeProtectedMethods =
        { make := !args.allowMake, get := !args.allowGet, set := !args.allowSet,
          del := !args.allowDel } ∧
      (m.allowOverride { allowGet := true }).writeProtectedMethods =
        { make := false, get := false, set := false, del := false } ∧
      (m.allowOverride {}).writeProtectedMethods =
        { make := false, get := false, set := false, del := false } :=
  fun _ _ => ⟨rfl, rfl, rfl⟩

/-- Counterexample to claim C2 as stated: A = type "T" {make: fn0} (fresh,
protected) and B = type "T" {get: fn1} with its `get` slot unprotected have
disjoint non-null slots, yet after `addBundle(A); addBundle(B)` B's `get` has
been overwritten with A's null (neither bundle holds the union), while the
reverse registration order keeps `get = fn1` — so the outcome also depends on
which bundle was registered first. -/
theorem c2_cex :
    (composeTwo bundleMakeA bundleGetUnprot).map (fun σ => (σ.heap 1).get) = some none ∧
      (composeTwo bundleMakeA bundleGetUnprot).map (fun σ => (σ.heap 0).get) =
        some none ∧
      (composeTwo bundleGetUnprot bundleMakeA).map (fun σ => (σ.heap 1).get) =
        some (some 1) ∧
      bundleGetUnprot.get = some 1 ∧ bundleMakeA.get = none := by
  decide

/-- Claim C2 amended: for two bundles of equal type with disjoint non-null
slots, BOTH FULLY WRITE-PROTECTED (as immediately after construction),
registering both leaves each holding the union of the non-null slots of
both, independent of registration order. -/
theorem c2_protected_disjoint_union :
    ∀ (t : String) (A B : Mixin), A.type = TypeField.str t → B.type = TypeField.str t →
      A.writeProtectedMethods = { make := true, get := true, set := true, del := true } →
      B.writeProtectedMethods = { make := true, get := true, set := true, del := true } →
      (∀ s, A.getOp s = none ∨ B.getOp s = none) →
      ∀ s : Slot,
        (composeTwo A B).map (fun σ => (σ.heap 0).getOp s) =
            some (orOp (A.getOp s) (B.getOp s)) ∧
          (composeTwo A B).map (fun σ => (σ.heap 1).getOp s) =
            some (orOp (A.getOp s) (B.getOp s)) ∧
          (composeTwo B A).map (fun σ => (σ.heap 0).getOp s) =
            some (orOp (A.getOp s) (B.getOp s)) ∧
          (composeTwo B A).map (fun σ => (σ.heap 1).getOp s) =
            some (orOp (A.getOp s) (B.getOp s)) := by
  intro t A B hA hB hWA hWB hdisj s
  have wpA : ∀ u, A.wpFlag u = true := fun u => by cases u <;> simp [Mixin.wpFlag, hWA]
  have wpB : ∀ u, B.wpFlag u = true := fun u => by cases u <;> simp [Mixin.wpFlag, hWB]
  have hBA : ∀ u, (B.patchMixin A).getOp u = orOp (B.getOp u) (A.getOp u) := fun u => by
    rw [patchMixin_op, wpB u]
    rcases hb : B.getOp u with _ | vb <;> simp [orOp]
  have hAB : ∀ u, (A.patchMixin B).getOp u = orOp (A.getOp u) (B.getOp u) := fun u => by
    rw [patchMixin_op, wpA u]
    rcases ha : A.getOp u with _ | va <;> simp [orOp]
  have hcomm : ∀ u, orOp (B.getOp u) (A.getOp u) = orOp (A.getOp u) (B.getOp u) := by
    intro u
    rcases hdisj u with h0 | h0 <;> rw [h0] <;>
      first
        | rfl
        | (rcases B.getOp u with _ | vb <;> rfl)
        | (rcases A.getOp u with _ | va <;> rfl)
  have h1 := composeTwo_spec t A B hA hB
  have h2 := composeTwo_spec t B A hB hA
  rcases hcc : composeTwo A B with _ | σ
  · rw [hcc] at h1
    exact Option.noConfusion h1
  · rcases hdd : composeTwo B A with _ | σ'
    · rw [hdd] at h2
      exact Option.noConfusion h2
    · rw [hcc] at h1
      rw [hdd] at h2
      simp only [Option.map_some', Option.some.injEq, Prod.mk.injEq] at h1 h2
      have e0 : (σ.heap 0).getOp s = orOp (A.getOp s) (B.getOp s) := by
        rw [h1.1, patchMixin_op, wpA s, hBA s, hcomm s]
        rcases ha : A.getOp s with _ | va <;> simp [orOp, ha]
      have e1 : (σ.heap 1).getOp s = orOp (A.getOp s) (B.getOp s) := by
        rw [h1.2.1, hBA s, hcomm s]
      have e0' : (σ'.heap 0).getOp s = orOp (A.getOp s) (B.getOp s) := by
        rw [h2.1, patchMixin_op, wpB s, hAB s]
        rcases hdisj s with h0 | h0 <;> rw [h0]
        · rcases hb : B.getOp s with _ | vb <;> simp [orOp]
        · rcases ha : A.getOp s with _ | va <;> simp [orOp]
      have e1' : (σ'.heap 1).getOp s = orOp (A.getOp s) (B.getOp s) := by
        rw [h2.2.1, hAB s]
      simp [hcc, hdd, e0, e1, e0', e1']

/-- Witness for C2 (amended) at the spec's concrete scenario: A = type "T"
{make: fn0}, B = type "T" {get: fn1}, both fresh. -/
theorem c2_wit :
    (composeTwo bundleMakeA bundleGetB).map (fun σ => (σ.heap 0).getOp Slot.get) =
        some (orOp (bundleMakeA.getOp Slot.get) (bundleGetB.getOp Slot.get)) ∧
      (composeTwo bundleMakeA bundleGetB).map (fun σ => (σ.heap 1).getOp Slot.get) =
        some (orOp (bundleMakeA.getOp Slot.get) (bundleGetB.getOp Slot.get)) ∧
      (composeTwo bundleGetB bundleMakeA).map (fun σ => (σ.heap 0).getOp Slot.get) =
        some (orOp (bundleMakeA.getOp Slot.get) (bundleGetB.getOp Slot.get)) ∧
      (composeTwo bundleGetB bundleMakeA).map (fun σ => (σ.heap 1).getOp Slot.get) =
        some (orOp (bundleMakeA.getOp Slot.get) (bundleGetB.getOp Slot.get)) :=
  c2_protected_disjoint_union "T" bundleMakeA bundleGetB rfl rfl rfl rfl
    (fun s => by cases s <;> decide) Slot.get

/-- Claim C9: two same-typed bundles, each protected at a slot where they
hold distinct operations, keep their own operations after both are
registered; and `addMixin` can never change a write-protected non-null slot
of any mixin in the registry, so the disagreement is permanent. -/
theorem c9_protected_disagreement_permanent :
    (∀ (t : String) (A B : Mixin) (s : Slot) (fa fb : Nat),
      A.type = TypeField.str t → B.type = TypeField.str t →
      A.getOp s = some fa → B.getOp s = some fb → fa ≠ fb →
      A.wpFlag s = true → B.wpFlag s = true →
      (composeTwo A B).map (fun σ => (σ.heap 0).getOp s) = some (some fa) ∧
        (composeTwo A B).map (fun σ => (σ.heap 1).getOp s) = some (some fb)) ∧
    (∀ (σ σ' : MixinCompositor) (i j : Nat) (s : Slot) (v : Nat),
      (σ.heap j).getOp s = some v → (σ.heap j).wpFlag s = true →
      σ.addMixin i = Except.ok σ' →
      (σ'.heap j).getOp s = some v ∧ (σ'.heap j).wpFlag s = true) := by
  constructor
  · intro t A B s fa fb hA hB hfa hfb _ hwa hwb
    have h1 := composeTwo_spec t A B hA hB
    rcases hcc : composeTwo A B with _ | σ
    · rw [hcc] at h1
      exact Option.noConfusion h1
    · rw [hcc] at h1
      simp only [Option.map_some', Option.some.injEq, Prod.mk.injEq] at h1
      have hBA := patchMixin_preserves B A s fb hfb hwb
      have hAB := patchMixin_preserves A (B.patchMixin A) s fa hfa hwa
      simp [hcc, h1.1, h1.2.1, hBA.1, hAB.1]
  · intro σ σ' i j s v hop hwp hok
    exact addMixin_preserves σ σ' i j s v hop hwp hok

/-- Witness for C9 at concrete bundles: two protected bundles of type "T"
with distinct `get` operations each keep their own after registration. -/
theorem c9_wit :
    (composeTwo bundleGetB (Mixin.construct (some "T") { get := some 2 })).map
        (fun σ => (σ.heap 0).getOp Slot.get) = some (some 1) ∧
      (composeTwo bundleGetB (Mixin.construct (some "T") { get := some 2 })).map
        (fun σ => (σ.heap 1).getOp Slot.get) = some (some 2) :=
  c9_protected_disagreement_permanent.1 "T" bundleGetB
    (Mixin.construct (some "T") { get := some 2 }) Slot.get 1 2 rfl rfl rfl rfl
    (by decide) rfl rfl

/-- Claim C10: a `Mixin` constructed without a type argument still has the
`type` property (holding `undefined`), so `addMixin` accepts it: it indexes
it under the key "undefined" (the string JS coerces the undefined key to) and
merges it with other such mixins; `addMixin` throws only for objects on which
the `type` property does not exist at all. -/
theorem c10_undefined_type_accepted :
    (∀ init : CRUDInitializer, (Mixin.construct none init).typeKey = some "undefined") ∧
    (∀ (σ : MixinCompositor) (i : Nat) (e : String),
      σ.addMixin i = Except.error e → (σ.heap i).typeKey = none) ∧
    (composeTwo (Mixin.construct none { make := some 0 })
        (Mixin.construct none { get := some 1 })).map
        (fun σ => (σ.mixins, (σ.heap 1).make)) = some ([("undefined", [0, 1])], some 0) := by
  refine ⟨fun init => rfl, ?_, by decide⟩
  intro σ i e hok
  unfold MixinCompositor.addMixin at hok
  split at hok
  · next heq => exact heq
  · split at hok <;> exact absurd hok (by simp)

/-- Witness for C10: `addMixin` on a mixin whose `type` key exists refuses to
throw (here derived from the error-only-if-type-missing direction). -/
theorem c10_wit :
    (Mixin.construct none { make := some 0 }).typeKey = some "undefined" ∧
      ((MixinCompositor.ofMixins [Mixin.construct none { make := some 0 }]).addMixin 0 =
          Except.error "Mixin plugin missing type definition" →
        (MixinCompositor.ofMixins
            [Mixin.construct none { make := some 0 }]).heap (0 : Nat) = dummyMixin) :=
  ⟨c10_undefined_type_accepted.1 { make := some 0 },
    fun herr => by
      have := c10_undefined_type_accepted.2.1
        (MixinCompositor.ofMixins [Mixin.construct none { make := some 0 }]) 0
        "Mixin plugin missing type definition" herr
      exact absurd this (by decide)⟩

/-- Claim C5: `addMixin` on an object with no `type` property throws the
type-missing `TypeError`; in an `addPlugin` batch the failing member is
registered under no key of the index, while members added before it remain
added (no rollback). -/
theorem c5_type_missing_error :
    (∀ (σ : MixinCompositor) (i : Nat), (σ.heap i).typeKey = none →
      σ.addMixin i = Except.error "Mixin plugin missing type definition") ∧
    (∀ (g b : Mixin) (k n : String), g.typeKey = some k → b.typeKey = none →
      ((MixinCompositor.ofMixins [g, b]).addPlugin { name := n, mixinIds := [0, 1] }).2 =
          some "Mixin plugin missing type definition" ∧
        ((MixinCompositor.ofMixins [g, b]).addPlugin
            { name := n, mixinIds := [0, 1] }).1.mixins = [(k, [0])] ∧
        ∀ q ∈ ((MixinCompositor.ofMixins [g, b]).addPlugin
            { name := n, mixinIds := [0, 1] }).1.mixins, 1 ∉ q.2) := by
  constructor
  · intro σ i h
    unfold MixinCompositor.addMixin
    rw [h]
  · intro g b k n hg hb
    have hrun : (MixinCompositor.ofMixins [g, b]).addPlugin { name := n, mixinIds := [0, 1] } =
        ({ plugins := [(n, { name := n, mixinIds := [0, 1] })],
           heap := (MixinCompositor.ofMixins [g, b]).heap,
           mixins := [(k, [0])] }, some "Mixin plugin missing type definition") := by
      simp [MixinCompositor.addPlugin, MixinCompositor.addMixinLoop, MixinCompositor.addMixin,
        MixinCompositor.ofMixins, putKey, hg, hb, List.lookup]
    rw [hrun]
    refine ⟨rfl, rfl, ?_⟩
    intro q hq
    rw [List.mem_singleton] at hq
    subst hq
    show (1 : Nat) ∉ [0]
    decide

/-- Witness for C5 at concrete mixins: the batch keeps the good bundle and
drops the type-less one. -/
theorem c5_wit :
    ((MixinCompositor.ofMixins [bundleMakeA, { type := TypeField.missing }]).addPlugin
          { name := "P", mixinIds := [0, 1] }).2 =
        some "Mixin plugin missing type definition" ∧
      ((MixinCompositor.ofMixins [bundleMakeA, { type := TypeField.missing }]).addPlugin
          { name := "P", mixinIds := [0, 1] }).1.mixins = [("T", [0])] ∧
      ∀ q ∈ ((MixinCompositor.ofMixins [bundleMakeA, { type := TypeField.missing }]).addPlugin
          { name := "P", mixinIds := [0, 1] }).1.mixins, 1 ∉ q.2 :=
  c5_type_missing_error.2 bundleMakeA { type := TypeField.missing } "T" "P" rfl rfl

/-- A concrete heap holding two member mixins for the C7 witness. -/
def sampleHeap : Heap :=
  fun i => [Mixin.construct (some "X") { make := some 1 },
    Mixin.construct (some "Y") {}].getD i dummyMixin

/-- Claim C7: constructing a `MixinPlugin` with `allowOverride = true` calls
`allowOverride()` on every member mixin, so immediately after construction —
before any merge — every member has all four write-protection flags false. -/
theorem c7_allow_override_all_unprotected :
    ∀ (h : Heap) (p : MixinPlugin), p.allowOverride = true →
      ∀ i ∈ p.mixinIds, ((MixinPlugin.construct h p).1 i).writeProtectedMethods =
        { make := false, get := false, set := false, del := false } := by
  intro h p hao i hi
  unfold MixinPlugin.construct
  rw [hao]
  simpa using foldl_unprotect_mem p.mixinIds h i hi

/-- Witness for C7 at a concrete plugin with two member mixins. -/
theorem c7_wit :
    ((MixinPlugin.construct sampleHeap
          { allowOverride := true, mixinIds := [0, 1] }).1 0).writeProtectedMethods =
      { make := false, get := false, set := false, del := false } :=
  c7_allow_override_all_unprotected sampleHeap
    { allowOverride := true, mixinIds := [0, 1] } rfl 0 (by decide)

/-- The calls the spec predicts for a run of `initMixinPlugins`: one call per
plugin with a non-null `initPlugin`, in registration order, each receiving
the plugin as receiver and a single argument — the array of init arguments. -/
def expectedCalls (args : List Nat) (ps : List (String × MixinPlugin)) :
    List (String × List JSVal) :=
  ps.filterMap (fun q =>
    match q.2.initPlugin with
    | none => none
    | some _ => some (q.1, [JSVal.arr args]))

/-- Unfolding `initLoop` at a plugin whose `initPlugin` is null. -/
theorem initLoop_cons_none (args : List Nat) (n : String) (p : MixinPlugin)
    (rest : List (String × MixinPlugin)) (hp : p.initPlugin = none) :
    initLoop args ((n, p) :: rest) = initLoop args rest := by
  conv_lhs => unfold initLoop
  rw [hp]

/-- Unfolding `initLoop` at a plugin whose initializer resolves. -/
theorem initLoop_cons_resolves (args : List Nat) (n : String) (p : MixinPlugin)
    (rest : List (String × MixinPlugin)) (hp : p.initPlugin = some InitResult.resolves) :
    initLoop args ((n, p) :: rest) =
      ((n, [JSVal.arr args]) :: (initLoop args rest).1, (initLoop args rest).2) := by
  conv_lhs => unfold initLoop
  rw [hp]

/-- Unfolding `initLoop` at a plugin whose initializer rejects. -/
theorem initLoop_cons_rejects (args : List Nat) (n : String) (p : MixinPlugin)
    (rest : List (String × MixinPlugin)) (e : Nat)
    (hp : p.initPlugin = some (InitResult.rejects e)) :
    initLoop args ((n, p) :: rest) = ([(n, [JSVal.arr args])], some e) := by
  conv_lhs => unfold initLoop
  rw [hp]

/-- Unfolding `expectedCalls` at a plugin whose `initPlugin` is null. -/
theorem expectedCalls_cons_none (args : List Nat) (n : String) (p : MixinPlugin)
    (rest : List (String × MixinPlugin)) (hp : p.initPlugin = none) :
    expectedCalls args ((n, p) :: rest) = expectedCalls args rest := by
  unfold expectedCalls
  rw [List.filterMap_cons]
  simp only [hp]

/-- Unfolding `expectedCalls` at a plugin whose `initPlugin` is present. -/
theorem expectedCalls_cons_some (args : List Nat) (n : String) (p : MixinPlugin)
    (rest : List (String × MixinPlugin)) (r : InitResult)
    (hp : p.initPlugin = some r) :
    expectedCalls args ((n, p) :: rest) =
      (n, [JSVal.arr args]) :: expectedCalls args rest := by
  unfold expectedCalls
  rw [List.filterMap_cons]
  simp only [hp]

/-- When no registered initializer rejects, the loop invokes exactly the
expected calls and reports no error. -/
theorem initLoop_no_reject (args : List Nat) :
    ∀ ps : List (String × MixinPlugin),
      (∀ q ∈ ps, q.2.initPlugin = none ∨ q.2.initPlugin = some InitResult.resolves) →
      initLoop args ps = (expectedCalls args ps, none)
  | [], _ => rfl
  | (n, p) :: rest, hall => by
    have hrest : ∀ q ∈ rest,
        q.2.initPlugin = none ∨ q.2.initPlugin = some InitResult.resolves :=
      fun q hq => hall q (List.mem_cons_of_mem _ hq)
    have hrec := initLoop_no_reject args rest hrest
    rcases hall (n, p) (List.mem_cons_self _ _) with hp | hp
    · rw [initLoop_cons_none args n p rest hp, expectedCalls_cons_none args n p rest hp,
        hrec]
    · rw [initLoop_cons_resolves args n p rest hp,
        expectedCalls_cons_some args n p rest InitResult.resolves hp, hrec]

/-- When the first rejecting initializer sits after a rejection-free prefix,
the loop invokes the prefix's calls plus the rejecting one, reports that
error, and invokes nothing after it. -/
theorem initLoop_first_reject (args : List Nat) (n : String) (p : MixinPlugin) (e : Nat)
    (hp : p.initPlugin = some (InitResult.rejects e)) :
    ∀ (pre post : List (String × MixinPlugin)),
      (∀ q ∈ pre, q.2.initPlugin = none ∨ q.2.initPlugin = some InitResult.resolves) →
      initLoop args (pre ++ (n, p) :: post) =
        (expectedCalls args pre ++ [(n, [JSVal.arr args])], some e)
  | [], post, _ => by
    rw [List.nil_append, initLoop_cons_rejects args n p post e hp]
    rfl
  | (n', p') :: pre, post, hall => by
    have hpre : ∀ q ∈ pre,
        q.2.initPlugin = none ∨ q.2.initPlugin = some InitResult.resolves :=
      fun q hq => hall q (List.mem_cons_of_mem _ hq)
    have hrec := initLoop_first_reject args n p e hp pre post hpre
    rw [List.cons_append]
    rcases hall (n', p') (List.mem_cons_self _ _) with hp' | hp'
    · rw [initLoop_cons_none args n' p' _ hp', expectedCalls_cons_none args n' p' pre hp',
        hrec]
    · rw [initLoop_cons_resolves args n' p' _ hp',
        expectedCalls_cons_some args n' p' pre InitResult.resolves hp', hrec,
        List.cons_append]

/-- Counterexample to claim C6 as stated: `initGroups([7])` on a registry
with one resolving initializer invokes it with the single argument
`[7]` — the array of init arguments — not with the argument `7` itself
(`plugin.initPlugin.call(plugin, initParameters)` passes the rest-parameter
array unspread). -/
theorem c6_cex :
    (MixinCompositor.initMixinPlugins
          { plugins := [("P", { initPlugin := some InitResult.resolves })] } [7]).1 =
        [("P", [JSVal.arr [7]])] ∧
      (MixinCompositor.initMixinPlugins
          { plugins := [("P", { initPlugin := some InitResult.resolves })] } [7]).1 ≠
        [("P", [JSVal.num 7])] := by
  decide

/-- Claim C6 amended: `initMixinPlugins` processes the registered plugins
sequentially in registration order, invoking each non-null `initPlugin` with
the plugin as receiver and ONE argument (the array of the call's init
arguments), resolving to the registry itself when all complete; when an
initializer rejects, the result rejects with that same error and plugins
after it are never invoked. -/
theorem c6_init_sequential :
    (∀ (σ : MixinCompositor) (args : List Nat),
      (∀ q ∈ σ.plugins,
        q.2.initPlugin = none ∨ q.2.initPlugin = some InitResult.resolves) →
      σ.initMixinPlugins args = (expectedCalls args σ.plugins, Except.ok σ)) ∧
    (∀ (σ : MixinCompositor) (args : List Nat)
        (pre post : List (String × MixinPlugin)) (n : String) (p : MixinPlugin) (e : Nat),
      σ.plugins = pre ++ (n, p) :: post →
      (∀ q ∈ pre, q.2.initPlugin = none ∨ q.2.initPlugin = some InitResult.resolves) →
      p.initPlugin = some (InitResult.rejects e) →
      σ.initMixinPlugins args =
        (expectedCalls args pre ++ [(n, [JSVal.arr args])], Except.error e)) := by
  constructor
  · intro σ args hall
    unfold MixinCompositor.initMixinPlugins
    rw [initLoop_no_reject args σ.plugins hall]
  · intro σ args pre post n p e hsplit hpre hp
    unfold MixinCompositor.initMixinPlugins
    rw [hsplit, initLoop_first_reject args n p e hp pre post hpre]

/-- Witness for C6 (amended): a resolving plugin "P", a rejecting plugin
"Q", and a plugin "R" after it — "P" and "Q" are invoked in order with the
argument array, the run rejects with "Q"'s error, "R" is never invoked. -/
theorem c6_wit :
    MixinCompositor.initMixinPlugins
        { plugins := [("P", { initPlugin := some InitResult.resolves }),
            ("Q", { initPlugin := some (InitResult.rejects 3) }),
            ("R", { initPlugin := some InitResult.resolves })] } [7] =
      (expectedCalls [7] [("P", { initPlugin := some InitResult.resolves })] ++
          [("Q", [JSVal.arr [7]])],
        Except.error 3) :=
  c6_init_sequential.2
    { plugins := [("P", { initPlugin := some InitResult.resolves }),
        ("Q", { initPlugin := some (InitResult.rejects 3) }),
        ("R", { initPlugin := some InitResult.resolves })] }
    [7] [("P", { initPlugin := some InitResult.resolves })]
    [("R", { initPlugin := some InitResult.resolves })]
    "Q" { initPlugin := some (InitResult.rejects 3) } 3 rfl (by decide) rfl
